import Mathlib

namespace Inspect

/-! Shallow embedding of src/inspect/rpc/rpc.go: the server composition and
lifecycle layer of the Inspect read-only JSON-RPC service. External
collaborators (query logic, JSON codec, CORS engine, network transport) are
left abstract; the parts of the repository that this file needs but that are
not under src/ are modelled from the spec and marked as such. -/

/-- Go time.Duration: a signed 64-bit count of nanoseconds. -/
abbrev Duration := Int

/-- One second, as a Go duration (nanoseconds). -/
def second : Duration := 1000000000

/-- The fields of config.RPCConfig read by src/inspect/rpc/rpc.go. The
corsEnabled field is modelled from the spec: ServerConfig carries a
CORS-enabled predicate (the IsCorsEnabled method of the configuration is
declared outside src/). -/
structure RPCConfig where
  MaxOpenConnections : Int
  MaxBodyBytes : Int
  MaxHeaderBytes : Int
  TimeoutBroadcastTxCommit : Duration
  CORSAllowedOrigins : List String
  CORSAllowedMethods : List String
  CORSAllowedHeaders : List String
  corsEnabled : Bool
deriving Repr, DecidableEq

/-- Modelled from the spec: the CORS-enabled predicate of the configuration
(config.RPCConfig.IsCorsEnabled, declared outside src/). -/
def RPCConfig.IsCorsEnabled (cfg : RPCConfig) : Bool := cfg.corsEnabled

/-- The transport configuration server.Config of rpc/jsonrpc/server. -/
structure ServerConfig where
  MaxOpenConnections : Int
  ReadTimeout : Duration
  WriteTimeout : Duration
  MaxBodyBytes : Int
  MaxHeaderBytes : Int
deriving Repr, DecidableEq

/-- Modelled from the spec: rpcserver.DefaultConfig (declared outside src/).
Only the default write timeout matters to this module; the spec fixes it at
10 seconds in its section 8 example (D = 10s). The remaining fields are
placeholders: serverRPCConfig overwrites the size limits and this module
never reads the others. -/
def DefaultConfig : ServerConfig :=
  { MaxOpenConnections := 0,
    ReadTimeout := 10 * second,
    WriteTimeout := 10 * second,
    MaxBodyBytes := 1000000,
    MaxHeaderBytes := 1048576 }

/-- serverRPCConfig from src/inspect/rpc/rpc.go: start from the default
transport configuration, copy the size limits from the RPC configuration,
and raise the write timeout to TimeoutBroadcastTxCommit plus one second when
the default write timeout does not exceed TimeoutBroadcastTxCommit. -/
def serverRPCConfig (r : RPCConfig) : ServerConfig :=
  let cfg := { DefaultConfig with
    MaxBodyBytes := r.MaxBodyBytes,
    MaxHeaderBytes := r.MaxHeaderBytes }
  if cfg.WriteTimeout ≤ r.TimeoutBroadcastTxCommit then
    { cfg with WriteTimeout := r.TimeoutBroadcastTxCommit + 1 * second }
  else
    cfg

/-- The query environment rpccore.Environment built by Routes, over opaque
store types: a state store, a block store, and event sinks. -/
structure Environment (σ β ε : Type) where
  EventSinks : List ε
  StateStore : σ
  BlockStore : β

/-- The Environment methods referenced by Routes; their query logic is an
external collaborator, so a handler reference is the pair of the captured
environment and the method tag. -/
inductive EnvMethod where
  | BlockchainInfo
  | ConsensusParams
  | Block
  | BlockByHash
  | BlockResults
  | Commit
  | Validators
  | Tx
  | TxSearch
  | BlockSearch
deriving Repr, DecidableEq

/-- Modelled from the spec: the splitting of the comma separated
parameter-name string performed by rpcserver.NewRPCFunc (declared outside
src/), yielding the ordered parameter names. -/
def splitCommaList : List Char → List (List Char)
  | [] => [[]]
  | c :: cs =>
    if c = ',' then [] :: splitCommaList cs
    else
      match splitCommaList cs with
      | [] => [[c]]
      | g :: gs => (c :: g) :: gs

/-- Split a string at commas. -/
def splitComma (s : String) : List String :=
  (splitCommaList s.data).map (fun cs => String.mk cs)

/-- Modelled from the spec: the route entry built by rpcserver.NewRPCFunc
(declared outside src/): a handler reference, the ordered parameter names,
and the cacheable flag. -/
structure RPCFunc (σ β ε : Type) where
  handler : Environment σ β ε × EnvMethod
  argNames : List String
  cacheable : Bool

/-- Modelled from the spec: rpcserver.NewRPCFunc (declared outside src/). -/
def NewRPCFunc {σ β ε : Type} (f : Environment σ β ε × EnvMethod)
    (argNames : String) (cacheable : Bool) : RPCFunc σ β ε :=
  { handler := f, argNames := splitComma argNames, cacheable := cacheable }

/-- rpccore.RoutesMap: method name to route entry. -/
abbrev RoutesMap (σ β ε : Type) := List (String × RPCFunc σ β ε)

/-- Routes from src/inspect/rpc/rpc.go: builds the environment from the
supplied stores and event sinks and returns the route table of the Inspect
server. -/
def Routes {σ β ε : Type} (store : σ) (blockStore : β) (eventSinks : List ε) :
    RoutesMap σ β ε :=
  let env : Environment σ β ε :=
    { EventSinks := eventSinks, StateStore := store, BlockStore := blockStore }
  [ ("blockchain", NewRPCFunc (env, EnvMethod.BlockchainInfo) "minHeight,maxHeight" true),
    ("consensus_params", NewRPCFunc (env, EnvMethod.ConsensusParams) "height" true),
    ("block", NewRPCFunc (env, EnvMethod.Block) "height" true),
    ("block_by_hash", NewRPCFunc (env, EnvMethod.BlockByHash) "hash" true),
    ("block_results", NewRPCFunc (env, EnvMethod.BlockResults) "height" true),
    ("commit", NewRPCFunc (env, EnvMethod.Commit) "height" true),
    ("validators", NewRPCFunc (env, EnvMethod.Validators) "height,page,per_page" true),
    ("tx", NewRPCFunc (env, EnvMethod.Tx) "hash,prove" true),
    ("tx_search", NewRPCFunc (env, EnvMethod.TxSearch) "query,prove,page,per_page,order_by" false),
    ("block_search", NewRPCFunc (env, EnvMethod.BlockSearch) "query,page,per_page,order_by" false) ]

/-- The canonical route table stated by the spec (section 4.1): method name,
ordered parameter names, cacheable flag. -/
def canonicalRouteTable : List (String × List String × Bool) :=
  [ ("blockchain", ["minHeight", "maxHeight"], true),
    ("consensus_params", ["height"], true),
    ("block", ["height"], true),
    ("block_by_hash", ["hash"], true),
    ("block_results", ["height"], true),
    ("commit", ["height"], true),
    ("validators", ["height", "page", "per_page"], true),
    ("tx", ["hash", "prove"], true),
    ("tx_search", ["query", "prove", "page", "per_page", "order_by"], false),
    ("block_search", ["query", "page", "per_page", "order_by"], false) ]

/-- The error values returned by UnsubscribeAll seen by this module:
tmpubsub.ErrSubscriptionNotFound or any other error. -/
inductive PubsubError where
  | subscriptionNotFound
  | other (msg : String)
deriving Repr, DecidableEq

/-- The capability of types.EventBusSubscriber used by this module: its
UnsubscribeAll method, as the error result keyed by the subscriber string
(the context argument is the constant context.Background and is omitted). -/
abbrev EventBusSubscriber := String → Option PubsubError

/-- One error-level log record produced by the disconnect callback. -/
structure LogEntry where
  msg : String
  addr : String
  err : PubsubError
deriving Repr, DecidableEq

/-- The observable effects of one run of the disconnect callback: which
subscriber keys were passed to UnsubscribeAll, and which error records were
logged. -/
structure DisconnectOutcome where
  unsubCalls : List String
  errorLogs : List LogEntry
deriving Repr, DecidableEq

/-- websocketDisconnectFn from src/inspect/rpc/rpc.go, as a function of the
event bus it closes over: call UnsubscribeAll once with the remote address;
log one error record unless the result is nil or ErrSubscriptionNotFound;
always return. -/
def websocketDisconnectFn (eventBus : EventBusSubscriber) (remoteAddr : String) :
    DisconnectOutcome :=
  let err := eventBus remoteAddr
  { unsubCalls := [remoteAddr],
    errorLogs :=
      match err with
      | none => []
      | some e =>
        if e = PubsubError.subscriptionNotFound then []
        else [{ msg := "Failed to unsubscribe addr from events", addr := remoteAddr, err := e }] }

/-- A Go runtime fault observable from this module. -/
inductive GoPanic where
  | nilPointerDereference
deriving Repr, DecidableEq

/-- Invoking the disconnect callback installed by Handler: the callback calls
UnsubscribeAll through its captured event-bus interface, and a method call
through a nil interface value is a runtime fault in Go. -/
def runOnDisconnect (capturedBus : Option EventBusSubscriber) (remoteAddr : String) :
    Except GoPanic DisconnectOutcome :=
  match capturedBus with
  | none => Except.error GoPanic.nilPointerDereference
  | some bus => Except.ok (websocketDisconnectFn bus remoteAddr)

/-- The logger capability: only the With operation (adding a key value pair
of context) is used by this module, so a logger is its accumulated context. -/
structure Logger where
  ctx : List (String × String)
deriving Repr, DecidableEq

/-- log.Logger.With: a logger extended with one key value pair. -/
def Logger.With (l : Logger) (k v : String) : Logger :=
  { ctx := l.ctx ++ [(k, v)] }

/-- The websocket manager built by rpcserver.NewWebsocketManager (declared
outside src/): the route table it dispatches, the event bus captured by its
disconnect callback, the read limit, and its logger. -/
structure WebsocketManager (σ β ε : Type) where
  routes : RoutesMap σ β ε
  onDisconnectBus : Option EventBusSubscriber
  readLimit : Int
  logger : Logger

/-- A handler registered on the multiplexer: the websocket upgrade handler
of a manager, or the JSON-RPC dispatch over a route table. -/
inductive MuxTarget (σ β ε : Type) where
  | websocketHandler (wm : WebsocketManager σ β ε)
  | rpcDispatch (routes : RoutesMap σ β ε) (logger : Logger)

/-- http.ServeMux: the registered path-to-handler entries. -/
structure ServeMux (σ β ε : Type) where
  entries : List (String × MuxTarget σ β ε)

/-- Modelled from the spec: rpcserver.RegisterRPCFuncs (declared outside
src/) registers the JSON-RPC dispatch over the whole route table on the
multiplexer, making every route entry reachable by the standard
method-invocation path. -/
def RegisterRPCFuncs {σ β ε : Type} (mux : ServeMux σ β ε)
    (routes : RoutesMap σ β ε) (logger : Logger) : ServeMux σ β ε :=
  { entries := mux.entries ++ [("/", MuxTarget.rpcDispatch routes logger)] }

/-- The cors.Options fields set by addCORSHandler. -/
structure CORSOptions where
  AllowedOrigins : List String
  AllowedMethods : List String
  AllowedHeaders : List String
deriving Repr, DecidableEq

/-- An http.Handler as composed by this module: the multiplexer, possibly
wrapped by the CORS middleware. -/
inductive HttpHandler (σ β ε : Type) where
  | mux (m : ServeMux σ β ε)
  | cors (opts : CORSOptions) (inner : HttpHandler σ β ε)

/-- addCORSHandler from src/inspect/rpc/rpc.go: build the CORS middleware
from the configured allowed origins, methods and headers, and wrap the
handler with it (the middleware behaviour itself is the external rs/cors
collaborator). -/
def addCORSHandler {σ β ε : Type} (rpcConfig : RPCConfig) (h : HttpHandler σ β ε) :
    HttpHandler σ β ε :=
  HttpHandler.cors
    { AllowedOrigins := rpcConfig.CORSAllowedOrigins,
      AllowedMethods := rpcConfig.CORSAllowedMethods,
      AllowedHeaders := rpcConfig.CORSAllowedHeaders } h

/-- Serving semantics of a composed handler, parametric in the external
semantics of the CORS middleware and of the multiplexer. -/
def HttpHandler.serve {σ β ε ρ ω : Type} (corsSem : CORSOptions → (ρ → ω) → ρ → ω)
    (muxSem : ServeMux σ β ε → ρ → ω) : HttpHandler σ β ε → ρ → ω
  | HttpHandler.mux m => muxSem m
  | HttpHandler.cors opts inner => corsSem opts (HttpHandler.serve corsSem muxSem inner)

/-- The multiplexer underlying a composed handler, with any CORS wrapping
stripped. -/
def HttpHandler.baseMux {σ β ε : Type} : HttpHandler σ β ε → ServeMux σ β ε
  | HttpHandler.mux m => m
  | HttpHandler.cors _ inner => HttpHandler.baseMux inner

/-- The local variable eventBus declared in Handler in
src/inspect/rpc/rpc.go: an interface variable of type
types.EventBusSubscriber that no statement of this module ever assigns, so
it keeps the Go zero value of an interface, nil (modelled as none). -/
def handlerEventBus : Option EventBusSubscriber := none

/-- The websocket manager built inside Handler:
rpcserver.NewWebsocketManager over the route table, with the disconnect
callback closing over handlerEventBus, the read limit set to MaxBodyBytes,
and the logger extended with the websocket protocol field by SetLogger. -/
def handlerWM {σ β ε : Type} (rpcConfig : RPCConfig) (routes : RoutesMap σ β ε)
    (logger : Logger) : WebsocketManager σ β ε :=
  { routes := routes,
    onDisconnectBus := handlerEventBus,
    readLimit := rpcConfig.MaxBodyBytes,
    logger := logger.With "protocol" "websocket" }

/-- The multiplexer built inside Handler: the websocket handler registered
at the fixed path, then the JSON-RPC functions registered over the same
route table. -/
def handlerMux {σ β ε : Type} (rpcConfig : RPCConfig) (routes : RoutesMap σ β ε)
    (logger : Logger) : ServeMux σ β ε :=
  let mux : ServeMux σ β ε := { entries := [] }
  let mux :=
    { mux with
      entries := mux.entries ++
        [("/websocket", MuxTarget.websocketHandler (handlerWM rpcConfig routes logger))] }
  RegisterRPCFuncs mux routes logger

/-- Handler from src/inspect/rpc/rpc.go: the multiplexer with the websocket
endpoint and the JSON-RPC routes, wrapped by the CORS middleware exactly
when the configuration enables CORS. -/
def Handler {σ β ε : Type} (rpcConfig : RPCConfig) (routes : RoutesMap σ β ε)
    (logger : Logger) : HttpHandler σ β ε :=
  let rootHandler := HttpHandler.mux (handlerMux rpcConfig routes logger)
  if rpcConfig.IsCorsEnabled then addCORSHandler rpcConfig rootHandler
  else rootHandler

/-- Modelled from the spec: a listener bound by rpcserver.Listen (declared
outside src/) on an address, capped at a maximum open-connection count. -/
structure Listener where
  addr : String
  maxOpenConnections : Int
deriving Repr, DecidableEq

/-- Modelled from the spec: BindError, the failure of listener creation
(address unavailable or invalid limit). -/
structure BindError where
  msg : String
deriving Repr, DecidableEq

/-- Modelled from the spec: the network environment deciding whether
rpcserver.Listen (declared outside src/) binds a listener on the given
address with the given open-connection cap, or fails with a BindError. -/
abbrev Network := String → Int → Except BindError Listener

/-- The error value returned by the serve loop. -/
abbrev ServeErr := String

/-- Modelled from the spec: the terminating error produced by the serve loop
once the listener has been closed. -/
def errListenerClosed : ServeErr := "use of closed network connection"

/-- One invocation of the external serve loop (rpcserver.Serve or
rpcserver.ServeTLS, declared outside src/): the listener, the handler, the
logger, the derived transport configuration, and the TLS certificate and key
file pair when TLS is terminated. -/
structure ServeCall (σ β ε : Type) where
  listener : Listener
  handler : HttpHandler σ β ε
  logger : Logger
  config : ServerConfig
  tls : Option (String × String)

/-- The value ListenAndServe returns to its caller: the bind error, or the
terminating error of the serve loop. -/
inductive LifecycleResult where
  | bindError (e : BindError)
  | serveReturn (e : ServeErr)

/-- The sequential trace of one run of ListenAndServe or ListenAndServeTLS:
the listen calls issued, whether the cancellation watcher goroutine was
spawned, the serve call issued if any, and the returned value. -/
structure LifecycleTrace (σ β ε : Type) where
  listenCalls : List (String × Int)
  watcherSpawned : Bool
  serveCalled : Option (ServeCall σ β ε)
  result : LifecycleResult

/-- The Server record of src/inspect/rpc/rpc.go. -/
structure Server (σ β ε : Type) where
  Addr : String
  Handler : HttpHandler σ β ε
  Logger : Logger
  Config : RPCConfig

/-- ListenAndServe from src/inspect/rpc/rpc.go: listen on srv.Addr capped at
MaxOpenConnections; on failure return the bind error at once; on success
spawn the cancellation watcher and run the serve loop on the handler with
the derived transport configuration. The listener creation and the serve
loop are the external collaborators net and serveExec. -/
def Server.ListenAndServe {σ β ε : Type} (srv : Server σ β ε) (net : Network)
    (serveExec : ServeCall σ β ε → ServeErr) : LifecycleTrace σ β ε :=
  match net srv.Addr srv.Config.MaxOpenConnections with
  | Except.error e =>
    { listenCalls := [(srv.Addr, srv.Config.MaxOpenConnections)],
      watcherSpawned := false,
      serveCalled := none,
      result := LifecycleResult.bindError e }
  | Except.ok listener =>
    let call : ServeCall σ β ε :=
      { listener := listener,
        handler := srv.Handler,
        logger := srv.Logger,
        config := serverRPCConfig srv.Config,
        tls := none }
    { listenCalls := [(srv.Addr, srv.Config.MaxOpenConnections)],
      watcherSpawned := true,
      serveCalled := some call,
      result := LifecycleResult.serveReturn (serveExec call) }

/-- ListenAndServeTLS from src/inspect/rpc/rpc.go: identical to
ListenAndServe except that the serve call terminates TLS with the supplied
certificate and key files. -/
def Server.ListenAndServeTLS {σ β ε : Type} (srv : Server σ β ε) (net : Network)
    (serveExec : ServeCall σ β ε → ServeErr) (certFile keyFile : String) :
    LifecycleTrace σ β ε :=
  match net srv.Addr srv.Config.MaxOpenConnections with
  | Except.error e =>
    { listenCalls := [(srv.Addr, srv.Config.MaxOpenConnections)],
      watcherSpawned := false,
      serveCalled := none,
      result := LifecycleResult.bindError e }
  | Except.ok listener =>
    let call : ServeCall σ β ε :=
      { listener := listener,
        handler := srv.Handler,
        logger := srv.Logger,
        config := serverRPCConfig srv.Config,
        tls := some (certFile, keyFile) }
    { listenCalls := [(srv.Addr, srv.Config.MaxOpenConnections)],
      watcherSpawned := true,
      serveCalled := some call,
      result := LifecycleResult.serveReturn (serveExec call) }

/-- Modelled from the spec: the joint state of one serve loop and its
cancellation watcher after a successful bind: whether the listener is still
open and whether the cancellation signal has been delivered, or the loop has
returned an error to the caller. -/
inductive ServeState where
  | serving (listenerOpen : Bool) (cancelDelivered : Bool)
  | returned (e : ServeErr)
deriving Repr, DecidableEq

/-- Labels of the lifecycle transitions. -/
inductive ServeLabel where
  | cancelSignal
  | watcherCloses
  | acceptConn
  | serveReturns
deriving Repr, DecidableEq

/-- Modelled from the spec: the transition relation of the serve lifecycle
(the watcher goroutine of ListenAndServe and the external serve loop of
rpcserver.Serve, declared outside src/). Delivering cancellation marks the
signal; the watcher closes an open listener once the signal is delivered;
the loop accepts connections only while the listener is open; once the
listener is closed the loop returns the terminating error to the caller. -/
inductive ServeStep : ServeLabel → ServeState → ServeState → Prop where
  | cancel (opn : Bool) :
      ServeStep ServeLabel.cancelSignal (ServeState.serving opn false) (ServeState.serving opn true)
  | watcher :
      ServeStep ServeLabel.watcherCloses (ServeState.serving true true) (ServeState.serving false true)
  | accept (c : Bool) :
      ServeStep ServeLabel.acceptConn (ServeState.serving true c) (ServeState.serving true c)
  | serveRet (c : Bool) :
      ServeStep ServeLabel.serveReturns (ServeState.serving false c) (ServeState.returned errListenerClosed)

/-- Reachability along lifecycle transitions. -/
def serveReach : ServeState → ServeState → Prop :=
  Relation.ReflTransGen (fun s t => ∃ l, ServeStep l s t)

/-- A concrete configuration with CORS enabled, for witnesses. -/
def cfgOn : RPCConfig :=
  { MaxOpenConnections := 3,
    MaxBodyBytes := 1000000,
    MaxHeaderBytes := 1048576,
    TimeoutBroadcastTxCommit := 10 * second,
    CORSAllowedOrigins := ["*"],
    CORSAllowedMethods := ["HEAD", "GET", "POST"],
    CORSAllowedHeaders := ["Origin", "Accept", "Content-Type"],
    corsEnabled := true }

/-- The same configuration with CORS disabled, for witnesses. -/
def cfgOff : RPCConfig := { cfgOn with corsEnabled := false }

/-- A concrete route table over trivial store types, for witnesses. -/
def routes0 : RoutesMap Nat Nat Nat := Routes 0 0 []

/-- An empty logger, for witnesses. -/
def logger0 : Logger := { ctx := [] }

/-- A concrete server, for witnesses. -/
def srv0 : Server Nat Nat Nat :=
  { Addr := "127.0.0.1:26657",
    Handler := HttpHandler.mux { entries := [] },
    Logger := logger0,
    Config := cfgOn }

/-- A network on which every bind fails, for witnesses. -/
def netFail : Network := fun _ _ => Except.error { msg := "listen tcp: address already in use" }

/-- A network on which every bind succeeds, for witnesses. -/
def netOk : Network := fun a m => Except.ok { addr := a, maxOpenConnections := m }

/-- A serve loop that returns the closed-listener error, for witnesses. -/
def sx0 : ServeCall Nat Nat Nat → ServeErr := fun _ => errListenerClosed

/-- C1: for every query environment, the route table returned by Routes is
exactly the ten entries of the canonical table, each with exactly the stated
parameter order and cacheable flag, and nothing else. -/
theorem routes_canonical_table {σ β ε : Type} (store : σ) (blockStore : β)
    (eventSinks : List ε) :
    (Routes store blockStore eventSinks).map
      (fun p => (p.1, p.2.argNames, p.2.cacheable)) = canonicalRouteTable := rfl

/-- C2: for every RPC configuration, the effective write timeout derived by
serverRPCConfig is the broadcast-commit timeout plus one second when the
default write timeout is at most the broadcast-commit timeout, and the
default write timeout unchanged otherwise. -/
theorem serverRPCConfig_writeTimeout (r : RPCConfig) :
    (serverRPCConfig r).WriteTimeout =
      if DefaultConfig.WriteTimeout ≤ r.TimeoutBroadcastTxCommit
      then r.TimeoutBroadcastTxCommit + 1 * second
      else DefaultConfig.WriteTimeout := by
  by_cases h : DefaultConfig.WriteTimeout ≤ r.TimeoutBroadcastTxCommit <;>
    simp [serverRPCConfig, h]

/-- C9: for every RPC configuration, the derived transport configuration
carries the maximum body bytes and maximum header bytes copied verbatim. -/
theorem serverRPCConfig_size_limits (r : RPCConfig) :
    (serverRPCConfig r).MaxBodyBytes = r.MaxBodyBytes ∧
    (serverRPCConfig r).MaxHeaderBytes = r.MaxHeaderBytes := by
  by_cases h : DefaultConfig.WriteTimeout ≤ r.TimeoutBroadcastTxCommit <;>
    simp [serverRPCConfig, h]

/-- C3: the handler produced by Handler is wrapped by the CORS middleware
built from the configured allowed origins, methods and headers exactly when
the CORS-enabled predicate is true; when it is false the produced handler is
the unwrapped multiplexer itself, hence serves every request identically to
it under every semantics of the collaborators. -/
theorem handler_cors_iff {σ β ε : Type} (cfg : RPCConfig) (routes : RoutesMap σ β ε)
    (logger : Logger) :
    (cfg.IsCorsEnabled = true →
      Handler cfg routes logger =
        HttpHandler.cors
          { AllowedOrigins := cfg.CORSAllowedOrigins,
            AllowedMethods := cfg.CORSAllowedMethods,
            AllowedHeaders := cfg.CORSAllowedHeaders }
          (HttpHandler.mux (handlerMux cfg routes logger))) ∧
    (cfg.IsCorsEnabled = false →
      Handler cfg routes logger = HttpHandler.mux (handlerMux cfg routes logger) ∧
      ∀ (ρ ω : Type) (corsSem : CORSOptions → (ρ → ω) → ρ → ω)
        (muxSem : ServeMux σ β ε → ρ → ω) (req : ρ),
        (Handler cfg routes logger).serve corsSem muxSem req =
          muxSem (handlerMux cfg routes logger) req) := by
  constructor
  · intro h
    simp [Handler, h, addCORSHandler]
  · intro h
    have hH : Handler cfg routes logger = HttpHandler.mux (handlerMux cfg routes logger) := by
      simp [Handler, h]
    refine ⟨hH, ?_⟩
    intro ρ ω corsSem muxSem req
    rw [hH]
    rfl

/-- Witness for C3: with CORS enabled the handler is the CORS wrapping of
the multiplexer; with CORS disabled it is the multiplexer itself and serves
a concrete request exactly as the multiplexer does. -/
theorem handler_cors_iff_witness :
    Handler cfgOn routes0 logger0 =
      HttpHandler.cors
        { AllowedOrigins := cfgOn.CORSAllowedOrigins,
          AllowedMethods := cfgOn.CORSAllowedMethods,
          AllowedHeaders := cfgOn.CORSAllowedHeaders }
        (HttpHandler.mux (handlerMux cfgOn routes0 logger0)) ∧
    Handler cfgOff routes0 logger0 = HttpHandler.mux (handlerMux cfgOff routes0 logger0) ∧
    (Handler cfgOff routes0 logger0).serve (fun _ f => f)
        (fun (_ : ServeMux Nat Nat Nat) (n : Nat) => n + 1) 5 =
      (fun (_ : ServeMux Nat Nat Nat) (n : Nat) => n + 1)
        (handlerMux cfgOff routes0 logger0) 5 :=
  ⟨(handler_cors_iff cfgOn routes0 logger0).1 rfl,
   ((handler_cors_iff cfgOff routes0 logger0).2 rfl).1,
   ((handler_cors_iff cfgOff routes0 logger0).2 rfl).2 Nat Nat (fun _ f => f)
     (fun _ n => n + 1) 5⟩

/-- C4: the code evaluated at a disconnect event. The disconnect callback
installed by Handler closes over the never-assigned nil event bus, so its
very first action, the UnsubscribeAll call, dereferences a nil interface: a
runtime fault, not a normal return, and no unsubscription happens. -/
theorem websocket_disconnect_nil_deref :
    runOnDisconnect (handlerWM cfgOn routes0 logger0).onDisconnectBus "10.0.0.5:4000" =
      Except.error GoPanic.nilPointerDereference := rfl

/-- C5: the event-bus reference captured by the disconnect closure of every
handler built by Handler is the local variable that this module never
assigns, so it stays none (the Go nil interface), and every invocation of
the disconnect callback goes through that unassigned interface and faults. -/
theorem handler_eventBus_unassigned {σ β ε : Type} (cfg : RPCConfig)
    (routes : RoutesMap σ β ε) (logger : Logger) :
    handlerEventBus = none ∧
    (handlerWM cfg routes logger).onDisconnectBus = handlerEventBus ∧
    ∀ a : String,
      runOnDisconnect (handlerWM cfg routes logger).onDisconnectBus a =
        Except.error GoPanic.nilPointerDereference :=
  ⟨rfl, rfl, fun _ => rfl⟩

/-- C6: when listener creation fails, ListenAndServe returns the bind error
immediately: exactly one listen attempt, no watcher spawned, no serve call,
and the bind error as its result. -/
theorem listenAndServe_bind_error {σ β ε : Type} (srv : Server σ β ε) (net : Network)
    (sx : ServeCall σ β ε → ServeErr) (e : BindError)
    (h : net srv.Addr srv.Config.MaxOpenConnections = Except.error e) :
    srv.ListenAndServe net sx =
      { listenCalls := [(srv.Addr, srv.Config.MaxOpenConnections)],
        watcherSpawned := false,
        serveCalled := none,
        result := LifecycleResult.bindError e } := by
  unfold Server.ListenAndServe
  rw [h]

/-- Witness for C6: a concrete server on a network where the address is
taken gets the bind error back at once, with no watcher and no serving. -/
theorem listenAndServe_bind_error_witness :
    srv0.ListenAndServe netFail sx0 =
      { listenCalls := [("127.0.0.1:26657", 3)],
        watcherSpawned := false,
        serveCalled := none,
        result := LifecycleResult.bindError { msg := "listen tcp: address already in use" } } :=
  listenAndServe_bind_error srv0 netFail sx0
    { msg := "listen tcp: address already in use" } rfl

/-- C7: once the cancellation signal is delivered, the watcher transition
closes the listener and the loop reaches the returned state carrying the
closed-listener terminating error; and no transition out of a
closed-listener state accepts a connection, so cancellation is never
silent. -/
theorem cancellation_closes_listener_and_returns :
    serveReach (ServeState.serving true true) (ServeState.returned errListenerClosed) ∧
    ServeStep ServeLabel.watcherCloses (ServeState.serving true true)
      (ServeState.serving false true) ∧
    (∀ (c : Bool) (l : ServeLabel) (s : ServeState),
      ServeStep l (ServeState.serving false c) s → l ≠ ServeLabel.acceptConn) := by
  refine ⟨?_, ServeStep.watcher, ?_⟩
  · exact Relation.ReflTransGen.head ⟨ServeLabel.watcherCloses, ServeStep.watcher⟩
      (Relation.ReflTransGen.head ⟨ServeLabel.serveReturns, ServeStep.serveRet true⟩
        Relation.ReflTransGen.refl)
  · intro c l s h
    cases h <;> decide

/-- Witness for C7: the returned state is reachable from the
cancel-delivered serving state, and the concrete step enabled from the
closed-listener state is the serve-return step, not an accept. -/
theorem cancellation_closes_listener_and_returns_witness :
    serveReach (ServeState.serving true true) (ServeState.returned errListenerClosed) ∧
    ServeLabel.serveReturns ≠ ServeLabel.acceptConn :=
  ⟨cancellation_closes_listener_and_returns.1,
   cancellation_closes_listener_and_returns.2.2 true ServeLabel.serveReturns
     (ServeState.returned errListenerClosed) (ServeStep.serveRet true)⟩

/-- C8: ListenAndServeTLS has the same contract as ListenAndServe up to TLS
termination: same listen call, same watcher, and a serve call that differs
only in carrying the certificate and key pair; on a successful bind the TLS
serve call uses the bound listener, the same handler, and the transport
configuration derived by the same config mapper. -/
theorem listenAndServeTLS_same_contract {σ β ε : Type} (srv : Server σ β ε)
    (net : Network) (sx : ServeCall σ β ε → ServeErr) (certFile keyFile : String) :
    (srv.ListenAndServeTLS net sx certFile keyFile).listenCalls =
      (srv.ListenAndServe net sx).listenCalls ∧
    (srv.ListenAndServeTLS net sx certFile keyFile).watcherSpawned =
      (srv.ListenAndServe net sx).watcherSpawned ∧
    (srv.ListenAndServeTLS net sx certFile keyFile).serveCalled =
      (srv.ListenAndServe net sx).serveCalled.map
        (fun c => { c with tls := some (certFile, keyFile) }) ∧
    (∀ l : Listener, net srv.Addr srv.Config.MaxOpenConnections = Except.ok l →
      (srv.ListenAndServeTLS net sx certFile keyFile).serveCalled =
        some { listener := l,
               handler := srv.Handler,
               logger := srv.Logger,
               config := serverRPCConfig srv.Config,
               tls := some (certFile, keyFile) }) := by
  unfold Server.ListenAndServe Server.ListenAndServeTLS
  cases h : net srv.Addr srv.Config.MaxOpenConnections <;> simp_all

/-- Witness for C8: on a concrete successful bind, the TLS serve call is the
plain serve call with the certificate and key pair added, over the bound
listener, the same handler and the derived transport configuration. -/
theorem listenAndServeTLS_same_contract_witness :
    (srv0.ListenAndServeTLS netOk sx0 "cert.pem" "key.pem").serveCalled =
      some { listener := { addr := "127.0.0.1:26657", maxOpenConnections := 3 },
             handler := srv0.Handler,
             logger := srv0.Logger,
             config := serverRPCConfig srv0.Config,
             tls := some ("cert.pem", "key.pem") } ∧
    (srv0.ListenAndServeTLS netOk sx0 "cert.pem" "key.pem").listenCalls =
      (srv0.ListenAndServe netOk sx0).listenCalls :=
  ⟨(listenAndServeTLS_same_contract srv0 netOk sx0 "cert.pem" "key.pem").2.2.2
      { addr := "127.0.0.1:26657", maxOpenConnections := 3 } rfl,
   (listenAndServeTLS_same_contract srv0 netOk sx0 "cert.pem" "key.pem").1⟩

/-- C10: for every configuration, route table and logger, the multiplexer
underlying the handler produced by Handler registers the websocket manager
at exactly the fixed path, that manager is constructed over the same route
table that the JSON-RPC dispatch entry uses, so the same methods are
invocable over the upgraded channel. -/
theorem handler_websocket_endpoint {σ β ε : Type} (cfg : RPCConfig)
    (routes : RoutesMap σ β ε) (logger : Logger) :
    (Handler cfg routes logger).baseMux.entries =
      [("/websocket", MuxTarget.websocketHandler (handlerWM cfg routes logger)),
       ("/", MuxTarget.rpcDispatch routes logger)] ∧
    (handlerWM cfg routes logger).routes = routes := by
  refine ⟨?_, rfl⟩
  cases h : cfg.IsCorsEnabled <;>
    simp [Handler, h, addCORSHandler, HttpHandler.baseMux, handlerMux, RegisterRPCFuncs]

end Inspect
